import Mathlib

/-!
Verification development for the VisuFix recording-and-synchronization
pipeline.  Shallow embedding, in Lean 4, of:

* `VideoRecordingService` (src/src/services/videoRecordingService.ts):
  capture of a canvas surface plus optional microphone audio, the
  MediaRecorder state machine, chunk buffering, and resource cleanup.
* the `handleDownloadMP4` / `handleTTSPlay` orchestration in
  src/src/App.tsx.
* `VideoGenerationPoller` (aiVideoService): polling a remote job until a
  terminal status, with cancellation.
* the two `TTSService.speak` variants (speech-synthesis wrappers).

Conventions of the embedding: the browser event loop is explicit — an
async function body runs to completion and its promise resolves before
any event handler that the platform fires afterwards runs; platform
events (`onstart`, `ondataavailable`, `onstop`, `onerror`, utterance
callbacks, timer callbacks) are delivered by an environment and are
modelled as explicit transition functions on the service state.  Calls
into the platform (`track.stop()`, `synth.speak`, `setTimeout`, state
setters) are recorded in instrumentation fields / event traces so that
theorems can speak about which side effects a run performed.
-/

namespace VisuFix

/-! ## JavaScript helpers -/

/-- JavaScript `a || b` on strings: the empty string (and, at call
sites, `undefined` encoded as `""`) is falsy. -/
def jsOrString (a b : String) : String :=
  if a = "" then b else a

/-- JavaScript `s.trim()`: strip leading and trailing whitespace.
Written over the character list so that it evaluates by kernel
reduction. -/
def jsTrim (s : String) : String :=
  String.mk
    (((s.toList.dropWhile Char.isWhitespace).reverse.dropWhile
        Char.isWhitespace).reverse)

/-! ## VideoRecordingService: mime-type selection

From `getSupportedMimeTypes` (videoRecordingService.ts lines 41-52) and
the selection in `startRecording` (line 111). -/

/-- The fixed descending-preference list of container/codec strings in
`getSupportedMimeTypes`. -/
def mimeTypePreferenceList : List String :=
  [ "video/webm;codecs=vp9,opus",
  "video/webm;codecs=vp8,opus",
  "video/webm;codecs=h264,opus",
  "video/webm",
  "video/mp4;codecs=h264,aac",
  "video/mp4" ]

/-- Model of `getSupportedMimeTypes()`: filters the fixed list by the platform
predicate `MediaRecorder.isTypeSupported`. -/
def getSupportedMimeTypes (isTypeSupported : String → Bool) : List String :=
  mimeTypePreferenceList.filter isTypeSupported

/-- The mime type actually used to construct the recorder:
`options.mimeType || supportedTypes[0] || 'video/webm'`
(startRecording line 111).  An absent `options.mimeType` is encoded as
`none`; JavaScript `undefined` and `""` are both falsy, so both fall
through to the supported list. -/
def selectedMimeType (optMime : Option String) (isTypeSupported : String → Bool) : String :=
  jsOrString (optMime.getD "")
    (jsOrString ((getSupportedMimeTypes isTypeSupported).headD "") "video/webm")

/-! ## VideoRecordingService: state and transitions -/

/-- One `BlobEvent.data` payload delivered by `ondataavailable`.
`sid` tags the recording session the chunk belongs to (instrumentation
used to express that a final artifact never mixes sessions); `size` is
`event.data.size`. -/
structure Chunk where
  sid : Nat
  size : Nat
  deriving DecidableEq, Repr

/-- The mutable fields of the `VideoRecordingService` singleton,
together with two instrumentation fields recording observable side
effects: `stops` logs every `track.stop()` call (one list entry per
call, carrying the track id), and `cleanupRuns` counts invocations of
the private `cleanup()` method. -/
structure SvcState where
  recordedChunks : List Chunk
  isRecording : Bool
  canvasStream : Option (List Nat)
  mixedStream : Option (List Nat)
  hasRecorder : Bool
  recorderMime : String
  stops : List Nat
  cleanupRuns : Nat
  deriving DecidableEq, Repr

/-- The service as constructed (all resource references null). -/
def initState : SvcState :=
  { recordedChunks := [], isRecording := false, canvasStream := none,
    mixedStream := none, hasRecorder := false, recorderMime := "",
    stops := [], cleanupRuns := 0 }

/-- Model of `isCurrentlyRecording()` (line 180). -/
def isCurrentlyRecording (st : SvcState) : Bool :=
  st.isRecording

/-- Model of `cleanup()` (lines 208-222): stop every track of `canvasStream`,
null it; stop every track of `mixedStream`, null it; drop the recorder
reference; clear `isRecording`. -/
def cleanup (st : SvcState) : SvcState :=
  let st1 :=
    match st.canvasStream with
    | some ts => { st with stops := st.stops ++ ts, canvasStream := none }
    | none => st
  let st2 :=
    match st1.mixedStream with
    | some ts => { st1 with stops := st1.stops ++ ts, mixedStream := none }
    | none => st1
  { st2 with
    hasRecorder := false, isRecording := false,
    cleanupRuns := st2.cleanupRuns + 1 }

/-- The environment of one `startRecording` call: whether the
capability check passes, which track ids `canvas.captureStream` and
`getUserMedia` hand out, whether the microphone is granted, the
caller-supplied `options.mimeType`, the platform support predicate, and
whether the `new MediaRecorder(...)` construction or the
`mediaRecorder.start(100)` call throws. -/
structure SessionParams where
  supported : Bool
  vids : List Nat
  audioGranted : Bool
  aids : List Nat
  optMime : Option String
  isTypeSupported : String → Bool
  ctorFails : Bool
  startFails : Bool

/-- The tracks a session with parameters `p` acquires: the canvas video
tracks, plus the microphone audio tracks when access was granted. -/
def acquiredTracks (p : SessionParams) : List Nat :=
  p.vids ++ (if p.audioGranted then p.aids else [])

/-- Model of `startRecording(canvas, options)` (lines 57-163), run to the point
where its promise settles.  Guard order is that of the source:
`isSupported()` first, then the `isRecording` re-entrancy check; then,
inside the `try`: clear `recordedChunks`, capture the canvas stream,
best-effort acquire audio (failure is caught and ignored), build the
mixed stream, select the mime type, construct the recorder, install the
event handlers and call `start(100)`.  A throw from recorder
construction or from `start` is caught, `cleanup()` runs, and the error
is rethrown.  Note that the function returns right after `start(100)`:
`isRecording` is set only by the later `onstart` event. -/
def startRecording (st : SvcState) (p : SessionParams) :
    SvcState × Except String Unit :=
  if ¬ p.supported then
    (st, Except.error "Video recording is not supported in this browser")
  else if st.isRecording then
    (st, Except.error "Recording is already in progress")
  else
    let st1 := { st with recordedChunks := [] }
    let st2 := { st1 with canvasStream := some p.vids }
    let audioTracks : List Nat := if p.audioGranted then p.aids else []
    let st3 := { st2 with mixedStream := some (p.vids ++ audioTracks) }
    let mime := selectedMimeType p.optMime p.isTypeSupported
    if p.ctorFails then
      (cleanup st3, Except.error "Failed to start recording")
    else
      let st4 := { st3 with hasRecorder := true, recorderMime := mime }
      if p.startFails then
        (cleanup st4, Except.error "Failed to start recording")
      else
        (st4, Except.ok ())

/-- Delivery of the recorder `onstart` event (lines 129-133): sets
`isRecording` and fires the caller's `onStart` callback. -/
def fireStart (st : SvcState) : SvcState :=
  { st with isRecording := true }

/-- Delivery of one `ondataavailable` event (lines 122-127): the chunk
is appended only when `event.data.size > 0`. -/
def fireData (st : SvcState) (c : Chunk) : SvcState :=
  if 0 < c.size then
    { st with recordedChunks := st.recordedChunks ++ [c] }
  else
    st

/-- Delivery of the recorder `onstop` event (lines 135-147): clear
`isRecording`, assemble the final blob from the buffered chunks with the
recorder mime type (`this.mediaRecorder?.mimeType || 'video/webm'`),
fire `onStop` with it, then run `cleanup()`.  Returns the new state and
the blob handed to `onStop` (its chunk list and its type tag). -/
def fireStop (st : SvcState) : SvcState × (List Chunk × String) :=
  let st1 := { st with isRecording := false }
  let mime := jsOrString (if st1.hasRecorder then st1.recorderMime else "") "video/webm"
  (cleanup st1, (st1.recordedChunks, mime))

/-- Delivery of the recorder `onerror` event (lines 149-154): fire the
error callback, then run `cleanup()`. -/
def fireError (st : SvcState) : SvcState :=
  cleanup st

/-- Model of `stopRecording()` (lines 168-175): a warning no-op unless a
recorder exists and `isRecording` holds; otherwise calls
`mediaRecorder.stop()` (the Boolean reports whether it did — the
actual `onstop` event is delivered by the environment afterwards). -/
def stopRecording (st : SvcState) : SvcState × Bool :=
  if ¬ st.isRecording ∨ ¬ st.hasRecorder then (st, false)
  else (st, true)

/-- How a recording session that got past setup ends: a normal
`stopRecording()` + `onstop`, or a mid-recording recorder `onerror`. -/
inductive SessionEnding where
  | normalStop
  | recorderError
  deriving DecidableEq, Repr

/-- One whole recording session against environment `p`: run
`startRecording`; on setup failure the session is over (the error
propagated).  Otherwise the platform delivers `onstart`, then the data
events `datas` in order, and the session ends per `ending`.  Returns
the final service state and the finalized blob when one was produced. -/
def runSession (st0 : SvcState) (p : SessionParams) (datas : List Chunk)
    (ending : SessionEnding) : SvcState × Option (List Chunk × String) :=
  match startRecording st0 p with
  | (st, Except.error _) => (st, none)
  | (st, Except.ok ()) =>
    let st := fireStart st
    let st := datas.foldl fireData st
    match ending with
    | SessionEnding.recorderError => (fireError st, none)
    | SessionEnding.normalStop =>
      match stopRecording st with
      | (st2, true) =>
        let r := fireStop st2
        (r.1, some r.2)
      | (st2, false) => (st2, none)

/-! ## App.tsx narration sequence (`handleTTSPlay`, lines 60-108) -/

/-- Observable steps of the narration handler: React state-setter calls
(`setCurrentTextIndex`, `setTtsStatus`, `setError`), calls into
`ttsService.speak`, and the 500 ms inter-entry `setTimeout` pause. -/
inductive TTSEv where
  | setIndex (i : Nat)
  | speakCall (t : String)
  | pause (ms : Nat)
  | setTtsStatus (s : String)
  | setErrorMsg (m : String)
  deriving DecidableEq, Repr

/-- The `for` loop of `handleTTSPlay` (lines 76-99): at index `i`,
call `setCurrentTextIndex(i)`, await `ttsService.speak` on the entry
(`speakOk i` says whether that await resolves or rejects), and — on
success, when `i < textElements.length - 1` — await a 500 ms pause.
A rejection exits the loop (the surrounding `catch` handles it).
Returns the emitted events and whether the loop ran to completion. -/
def ttsLoop (speakOk : Nat → Bool) :
    List String → Nat → Nat → List TTSEv × Bool
  | [], _, _ => ([], true)
  | t :: rest, i, total =>
    if speakOk i then
      let pauseEvs : List TTSEv := if i < total - 1 then [TTSEv.pause 500] else []
      let r := ttsLoop speakOk rest (i + 1) total
      ([TTSEv.setIndex i, TTSEv.speakCall t] ++ pauseEvs ++ r.1, r.2)
    else
      ([TTSEv.setIndex i, TTSEv.speakCall t], false)

/-- Model of `handleTTSPlay` (App.tsx lines 60-108) as the list of observable
steps it performs.  Guards first: empty queue, then the Web Speech
capability check; then `setTtsStatus('playing')` and
`setCurrentTextIndex(0)`, the loop, and either the success epilogue
(`setTtsStatus('idle')`, `setCurrentTextIndex(0)`) or the `catch`
branch (`setError`, `setTtsStatus('idle')`).  `textElements` is the
snapshot the loop iterates over; `speakOk` tells which `speak` awaits
succeed. -/
def handleTTSPlay (textElements : List String) (ttsSupported : Bool)
    (speakOk : Nat → Bool) : List TTSEv :=
  if textElements.length = 0 then
    [TTSEv.setErrorMsg "No text elements found. Add some text to the canvas first!"]
  else if ¬ ttsSupported then
    [TTSEv.setErrorMsg "Text-to-speech is not supported in your browser."]
  else
    let r := ttsLoop speakOk textElements 0 textElements.length
    [TTSEv.setTtsStatus "playing", TTSEv.setIndex 0] ++ r.1 ++
      (if r.2 then
        [TTSEv.setTtsStatus "idle", TTSEv.setIndex 0]
      else
        [TTSEv.setErrorMsg "Error during text-to-speech playback.",
         TTSEv.setTtsStatus "idle"])

/-- Written from the claim wording, to be compared with the trace of
`handleTTSPlay`: for each entry `i` starting at index `start`, the
"now reading index i" notification, then exactly one `speak` call for
the entry, then — between consecutive entries only — exactly one fixed
500 ms pause. -/
def specNarrationSeq : List String → Nat → List TTSEv
  | [], _ => []
  | [t], i => [TTSEv.setIndex i, TTSEv.speakCall t]
  | t :: u :: rest, i =>
    [TTSEv.setIndex i, TTSEv.speakCall t, TTSEv.pause 500] ++
      specNarrationSeq (u :: rest) (i + 1)

/-- Projection selecting the `speak` calls of a trace. -/
def speakOf : TTSEv → Option String
  | TTSEv.speakCall t => some t
  | _ => none

/-- Recognizer for the fixed 500 ms inter-entry pause. -/
def isPause500 : TTSEv → Bool
  | TTSEv.pause ms => ms == 500
  | _ => false

/-! ## App.tsx recording orchestration (`handleDownloadMP4`, lines 126-191) -/

/-- Observable steps of the download handler: React state setters, the
call into `videoRecordingService.startRecording`, the two grace-period
waits, the narration leg, and the call into
`videoRecordingService.stopRecording`. -/
inductive OrchEv where
  | setStatus (s : String)
  | clearError
  | startRecCall
  | delayWait (ms : Nat)
  | ttsPlayCall
  | stopRecCall
  | setErrorMsg (m : String)
  deriving DecidableEq, Repr

/-- Outcome of one `handleDownloadMP4` invocation: the steps it
performed, the error its returned promise rejects with (`none` when the
promise resolves normally, i.e. the handler swallowed or had no error),
and the value of `recordingStatus` when the handler returns. -/
structure OrchResult where
  trace : List OrchEv
  propagated : Option String
  finalStatus : String
  deriving DecidableEq, Repr

/-- Inputs of one `handleDownloadMP4` invocation: the guard data
(canvas readiness, number of text elements, recorder support, current
`recordingStatus`) and the behaviour of the two awaited fallible
sub-steps — whether `videoRecordingService.startRecording` rejects, and
whether the narration leg (`handleTTSPlay`) rejects.  The grace-period
waits never reject. -/
structure OrchInput where
  canvasReady : Bool
  textCount : Nat
  recSupported : Bool
  status0 : String
  startThrows : Bool
  ttsThrows : Bool
  deriving DecidableEq, Repr

/-- Model of `handleDownloadMP4` (App.tsx lines 126-191).  Guards in source
order: missing canvas, empty text, unsupported recorder, and the
re-entrancy check on `recordingStatus`; each returns early without
touching the recorder.  Then the `try` block: `setRecordingStatus('recording')`,
`setError(null)`, await `startRecording`, await 500 ms, await
`handleTTSPlay()`, await 1000 ms, `stopRecording()`.  The `catch`
block (lines 186-190) logs, calls `setError(...)` and
`setRecordingStatus('idle')`, and returns normally — it neither calls
`stopRecording()` nor rethrows. -/
def handleDownloadMP4 (inp : OrchInput) : OrchResult :=
  if ¬ inp.canvasReady then
    { trace := [OrchEv.setErrorMsg "Canvas not ready. Please wait for the image to load."],
      propagated := none, finalStatus := inp.status0 }
  else if inp.textCount = 0 then
    { trace := [OrchEv.setErrorMsg "No text elements found. Add some text to create a video with voiceover."],
      propagated := none, finalStatus := inp.status0 }
  else if ¬ inp.recSupported then
    { trace := [OrchEv.setErrorMsg "Video recording is not supported in your browser. Please try Chrome, Firefox, or Edge."],
      propagated := none, finalStatus := inp.status0 }
  else if inp.status0 = "recording" ∨ inp.status0 = "processing" then
    { trace := [], propagated := none, finalStatus := inp.status0 }
  else
    let pre : List OrchEv := [OrchEv.setStatus "recording", OrchEv.clearError]
    if inp.startThrows then
      { trace := pre ++ [OrchEv.startRecCall,
          OrchEv.setErrorMsg "Failed to create video", OrchEv.setStatus "idle"],
        propagated := none, finalStatus := "idle" }
    else if inp.ttsThrows then
      { trace := pre ++ [OrchEv.startRecCall, OrchEv.delayWait 500, OrchEv.ttsPlayCall,
          OrchEv.setErrorMsg "Failed to create video", OrchEv.setStatus "idle"],
        propagated := none, finalStatus := "idle" }
    else
      { trace := pre ++ [OrchEv.startRecCall, OrchEv.delayWait 500, OrchEv.ttsPlayCall,
          OrchEv.delayWait 1000, OrchEv.stopRecCall],
        propagated := none, finalStatus := "recording" }

/-! ## TTSService.speak — the two speech-synthesis wrappers -/

/-- The platform `speechSynthesis` engine: `queue` holds the utterances
currently queued or speaking (in submission order); `speakCalls` and
`cancelCalls` count the engine invocations. -/
structure SpeechEngine where
  queue : List String
  speakCalls : Nat
  cancelCalls : Nat
  deriving DecidableEq, Repr

/-- Model of `speechSynthesis.speak(utterance)`: enqueue the utterance. -/
def synthSpeak (e : SpeechEngine) (t : String) : SpeechEngine :=
  { e with queue := e.queue ++ [t], speakCalls := e.speakCalls + 1 }

/-- Model of `speechSynthesis.cancel()`: drop every queued or active utterance. -/
def synthCancel (e : SpeechEngine) : SpeechEngine :=
  { e with queue := [], cancelCalls := e.cancelCalls + 1 }

/-- First variant, `TTSService.speak` of services/ttsService.ts
(unnamed/part_001 lines 179-231), run to the point where the utterance
is submitted: reject when the capability is absent; reject when the
text is empty after trimming; otherwise `this.stop()` (which calls
`synth.cancel()`) and then `synth.speak(utterance)`. -/
def speakSubmitV1 (supported : Bool) (text : String) (e : SpeechEngine) :
    SpeechEngine × Except String Unit :=
  if ¬ supported then
    (e, Except.error "Text-to-speech is not supported in this browser")
  else if jsTrim text = "" then
    (e, Except.error "No text provided for speech synthesis")
  else
    (synthSpeak (synthCancel e) text, Except.ok ())

/-- Second variant, `TTSService.speak` (unnamed/part_001 lines
286-320), run to the point where the utterance is submitted: throw when
`speechSynthesis` is absent; otherwise build the utterance and call
`synth.speak(utterance)` directly — no cancellation of prior
narration. -/
def speakSubmitV2 (synthesisPresent : Bool) (text : String) (e : SpeechEngine) :
    SpeechEngine × Except String Unit :=
  if ¬ synthesisPresent then
    (e, Except.error "Speech synthesis not supported")
  else
    (synthSpeak e text, Except.ok ())

/-! ## VideoGenerationPoller (aiVideoService, unnamed/part_001 lines 108-161) -/

/-- The payload of `GET /video-status/...` as the poller consumes it.
The `status` field is the raw string the backend reports; the poller
compares it against `'SUCCEEDED'` and `'FAILED'` and treats everything
else as non-terminal. -/
structure VideoStatusResponse where
  status : String
  progress : Option Nat := none
  resultUrl : Option String := none
  error : Option String := none
  deriving DecidableEq, Repr

/-- Result of one `checkVideoStatus` call: a typed status, or a thrown
error (network failure / non-OK response). -/
inductive CheckResult where
  | ok (s : VideoStatusResponse)
  | thrown (e : String)
  deriving DecidableEq, Repr

/-- A non-terminal response: the poller continues after it. -/
def nonTerminal (s : VideoStatusResponse) : Bool :=
  s.status != "SUCCEEDED" && s.status != "FAILED"

/-- A check result the poller polls past. -/
def okNonTerminal : CheckResult → Bool
  | CheckResult.ok s => nonTerminal s
  | CheckResult.thrown _ => false

/-- When `stopPolling()` is invoked relative to the check sequence.
`duringCheck i` covers a `stopPolling` that runs while check `i` is in
flight, or from inside `onUpdate` for check `i` — either way
`isPolling` is already false when `poll` reaches its decision for check
`i`.  `whilePending i` (meaningful for `i ≥ 1`) is a `stopPolling`
while the `setTimeout` scheduled before check `i` is still pending: the
timeout is cleared and check `i` never runs. -/
inductive CancelAt where
  | never
  | duringCheck (i : Nat)
  | whilePending (i : Nat)
  deriving DecidableEq, Repr

/-- How one `pollUntilComplete` promise settles.  `stillPending` means
the promise never settles (in the code this happens when the pending
timeout is cleared: nothing ever resolves or rejects the promise). -/
inductive PollOutcome where
  | resolved (s : VideoStatusResponse)
  | rejectedFailed (e : String)
  | rejectedCancelled (e : String)
  | rejectedThrown (e : String)
  | stillPending
  deriving DecidableEq, Repr

/-- Observables of one `pollUntilComplete` run: how the promise
settled, how many checks actually ran (`checkVideoStatus` calls
that were issued), the statuses passed to `onUpdate` in order, and how
many `setTimeout` calls were made. -/
structure PollRun where
  outcome : PollOutcome
  checksPerformed : Nat
  updates : List VideoStatusResponse
  timersScheduled : Nat
  deriving DecidableEq, Repr

/-- The recursive `poll` closure of `pollUntilComplete` (lines
121-146), about to run check number `i` (0-based), with `checks`
supplying the environment responses for check `i`, `i+1`, ....
A `whilePending i` cancellation clears the timeout scheduled before
check `i`, so the check never runs and nothing settles the promise.
Otherwise the check runs: a thrown error rejects via the `catch`
(`stopPolling` then `reject`); an `ok` status is first passed to
`onUpdate`, then: `SUCCEEDED` resolves, `FAILED` rejects with the job
error, a cleared `isPolling` flag rejects with the cancellation error,
and otherwise `setTimeout(poll, intervalMs)` schedules the next
round.  An exhausted `checks` list models a check whose response never
arrives. -/
def pollLoop (c : CancelAt) : List CheckResult → Nat → PollRun
  | [], i =>
    { outcome := PollOutcome.stillPending, checksPerformed := i,
      updates := [], timersScheduled := 0 }
  | r :: rest, i =>
    if c = CancelAt.whilePending i then
      { outcome := PollOutcome.stillPending, checksPerformed := i,
        updates := [], timersScheduled := 0 }
    else
      match r with
      | CheckResult.thrown e =>
        { outcome := PollOutcome.rejectedThrown e, checksPerformed := i + 1,
          updates := [], timersScheduled := 0 }
      | CheckResult.ok s =>
        if s.status = "SUCCEEDED" then
          { outcome := PollOutcome.resolved s, checksPerformed := i + 1,
            updates := [s], timersScheduled := 0 }
        else if s.status = "FAILED" then
          { outcome := PollOutcome.rejectedFailed (s.error.getD "Video generation failed"),
            checksPerformed := i + 1, updates := [s], timersScheduled := 0 }
        else if c = CancelAt.duringCheck i then
          { outcome := PollOutcome.rejectedCancelled "Video generation was cancelled",
            checksPerformed := i + 1, updates := [s], timersScheduled := 0 }
        else
          let k := pollLoop c rest (i + 1)
          { outcome := k.outcome, checksPerformed := k.checksPerformed,
            updates := s :: k.updates, timersScheduled := k.timersScheduled + 1 }

/-- Model of `pollUntilComplete(taskId, onUpdate, intervalMs)` (lines 113-148):
sets `isPolling`, then calls `poll()` synchronously — the first check
runs immediately, with no initial timer. -/
def pollUntilComplete (checks : List CheckResult) (c : CancelAt) : PollRun :=
  pollLoop c checks 0

/-- The mutable fields of a `VideoGenerationPoller` instance. -/
structure PollerState where
  intervalId : Option Nat
  isPolling : Bool
  deriving DecidableEq, Repr

/-- Model of `stopPolling()` (lines 150-156): clear `isPolling`; when a timeout
id is held, `clearTimeout` it and null the field. -/
def stopPolling (st : PollerState) : PollerState :=
  let st1 := { st with isPolling := false }
  match st1.intervalId with
  | some _ => { st1 with intervalId := none }
  | none => st1

/-- The status payloads carried by a list of check results (the values
a run of those checks hands to `onUpdate`). -/
def statusesOf : List CheckResult → List VideoStatusResponse
  | [] => []
  | CheckResult.ok s :: rest => s :: statusesOf rest
  | CheckResult.thrown _ :: rest => statusesOf rest

/-- Chunks the `ondataavailable` handler keeps: `event.data.size > 0`. -/
def keepChunk (c : Chunk) : Bool :=
  decide (0 < c.size)

/-! ## Helper lemmas -/

/-- Folding the `ondataavailable` handler over a list of data events
only appends the positive-size chunks to the buffer; every other field
is untouched. -/
theorem foldl_fireData (datas : List Chunk) (st : SvcState) :
    datas.foldl fireData st =
      { st with recordedChunks := st.recordedChunks ++ datas.filter keepChunk } := by
  induction datas generalizing st with
  | nil => simp
  | cons c cs ih =>
    by_cases h : 0 < c.size
    · simp [List.foldl_cons, fireData, h, ih, keepChunk, List.filter_cons]
    · simp [List.foldl_cons, fireData, h, ih, keepChunk, List.filter_cons]

/-- Every entry of the fixed preference list is a non-empty string. -/
theorem mimeTypePreferenceList_ne_empty :
    ∀ x ∈ mimeTypePreferenceList, x ≠ "" := by
  decide

/-- Without a caller-supplied mime type, the selection is the first
platform-supported entry of the fixed list, defaulting to
`"video/webm"`. -/
theorem selectedMimeType_none (sup : String → Bool) :
    selectedMimeType none sup = (getSupportedMimeTypes sup).headD "video/webm" := by
  cases hl : getSupportedMimeTypes sup with
  | nil => simp [selectedMimeType, hl, jsOrString]
  | cons a l =>
    have ha : a ≠ "" := by
      have hmem : a ∈ getSupportedMimeTypes sup := by
        rw [hl]; exact List.mem_cons_self a l
      exact mimeTypePreferenceList_ne_empty a
        (List.mem_of_mem_filter hmem)
    simp [selectedMimeType, hl, jsOrString, ha]

/-- A caller-supplied non-empty mime type is used as given. -/
theorem selectedMimeType_some (s : String) (hs : s ≠ "") (sup : String → Bool) :
    selectedMimeType (some s) sup = s := by
  simp [selectedMimeType, jsOrString, hs]

/-- When every `speak` await succeeds, the narration loop emits exactly
the claimed per-entry pattern. -/
theorem ttsLoop_allOk (speakOk : Nat → Bool) (hok : ∀ j, speakOk j = true) :
    ∀ (rem : List String) (i : Nat),
      ttsLoop speakOk rem i (i + rem.length) = (specNarrationSeq rem i, true) := by
  intro rem
  induction rem with
  | nil => intro i; simp [ttsLoop, specNarrationSeq]
  | cons t rest ih =>
    intro i
    cases rest with
    | nil =>
      simp [ttsLoop, specNarrationSeq, hok i]
    | cons u rs =>
      have ihk := ih (i + 1)
      have e1 : i + (t :: u :: rs).length = (i + 1) + (u :: rs).length := by
        simp only [List.length_cons]; omega
      rw [e1, ttsLoop, ihk]
      have hpau : i < i + 1 + rs.length := by omega
      simp [hok i, hpau, specNarrationSeq]

/-- The per-entry pattern speaks each entry exactly once, in order. -/
theorem specNarrationSeq_speaks :
    ∀ (rem : List String) (i : Nat),
      (specNarrationSeq rem i).filterMap speakOf = rem := by
  intro rem
  induction rem with
  | nil => intro i; simp [specNarrationSeq]
  | cons t rest ih =>
    intro i
    cases rest with
    | nil => simp [specNarrationSeq, speakOf]
    | cons u rs => simp [specNarrationSeq, speakOf, ih (i + 1)]

/-- The per-entry pattern has exactly one 500 ms pause between
consecutive entries and none after the last. -/
theorem specNarrationSeq_pauses :
    ∀ (rem : List String) (i : Nat),
      ((specNarrationSeq rem i).filter isPause500).length = rem.length - 1 := by
  intro rem
  induction rem with
  | nil => intro i; simp [specNarrationSeq]
  | cons t rest ih =>
    intro i
    cases rest with
    | nil => simp [specNarrationSeq, isPause500]
    | cons u rs =>
      simp [specNarrationSeq, isPause500, ih (i + 1), List.filter_cons]

/-- Running the poll loop through a prefix of non-terminal statuses that
the cancellation does not interrupt: every prefix status is emitted, one
timer is scheduled per continuation, and the run continues on the rest. -/
theorem pollLoop_append (c : CancelAt) (pre rest : List CheckResult) (i : Nat)
    (hpre : ∀ r ∈ pre, okNonTerminal r = true)
    (hc : ∀ j, i ≤ j → j < i + pre.length →
      c ≠ CancelAt.duringCheck j ∧ c ≠ CancelAt.whilePending j) :
    pollLoop c (pre ++ rest) i =
      { outcome := (pollLoop c rest (i + pre.length)).outcome,
        checksPerformed := (pollLoop c rest (i + pre.length)).checksPerformed,
        updates := statusesOf pre ++ (pollLoop c rest (i + pre.length)).updates,
        timersScheduled := (pollLoop c rest (i + pre.length)).timersScheduled + pre.length } := by
  induction pre generalizing i with
  | nil => simp [statusesOf]
  | cons r pre2 ih =>
    obtain ⟨hcd, hcw⟩ :=
      hc i (Nat.le_refl i) (by simp only [List.length_cons]; omega)
    have hr : okNonTerminal r = true := hpre r (List.mem_cons_self r pre2)
    cases r with
    | thrown e => simp [okNonTerminal] at hr
    | ok s =>
      have hnt : ¬ s.status = "SUCCEEDED" ∧ ¬ s.status = "FAILED" := by
        simpa [okNonTerminal, nonTerminal] using hr
      have ih2 := ih (i + 1) (fun x hx => hpre x (List.mem_cons_of_mem _ hx))
        (fun j hj1 hj2 =>
          hc j (by omega) (by simp only [List.length_cons] at hj2 ⊢; omega))
      have harith : i + 1 + pre2.length = i + (CheckResult.ok s :: pre2).length := by
        simp only [List.length_cons]; omega
      rw [harith] at ih2
      rw [List.cons_append, pollLoop, if_neg hcw]
      rw [if_neg hnt.1, if_neg hnt.2, if_neg hcd, ih2]
      simp only [PollRun.mk.injEq, true_and]
      constructor
      · simp [statusesOf]
      · simp only [List.length_cons]; omega

/-! ## Claim theorems -/

/-- C3: at most one recording session is active at a time — a call to
`startRecording` made while a session is already active (`isRecording`)
fails fast with the `already in progress` error and leaves the service
state completely unchanged, so no new capture resources are acquired
(no new streams, no track operations, no buffer reset). -/
theorem startRecordingReentrancyGuard (st : SvcState) (p : SessionParams)
    (hsup : p.supported = true) (hrec : st.isRecording = true) :
    startRecording st p = (st, Except.error "Recording is already in progress") := by
  simp [startRecording, hsup, hrec]

/-- C3 witness: the re-entrancy guard evaluated on a concrete active
session. -/
theorem startRecordingReentrancyGuardWitness :
    startRecording { initState with isRecording := true }
        ⟨true, [1], true, [2], none, fun _ => false, false, false⟩ =
      ({ initState with isRecording := true },
        Except.error "Recording is already in progress") :=
  startRecordingReentrancyGuard _ _ rfl rfl

/-- C4 counterexample: the claim says that when the promise returned by
`startRecording` resolves, the session is already in the Recording
state.  In the code the promise resolves right after
`mediaRecorder.start(100)` is invoked, while `isRecording` is set only
by the later `onstart` event: here is a successful `startRecording`
call whose resolution leaves `isCurrentlyRecording()` false. -/
theorem startConfirmedActiveRefuted :
    (startRecording initState
        ⟨true, [1], true, [2], none, fun _ => false, false, false⟩).2 = Except.ok () ∧
    isCurrentlyRecording (startRecording initState
        ⟨true, [1], true, [2], none, fun _ => false, false, false⟩).1 = false :=
  ⟨rfl, rfl⟩

/-- C4 (amended): a successful `startRecording` resolves with
`isCurrentlyRecording()` still false; the Recording state (and with it
the `onStart` notification) is established only once the platform
delivers the recorder `onstart` event. -/
theorem startRecordingActiveOnlyAfterOnstart (st : SvcState) (p : SessionParams)
    (h : (startRecording st p).2 = Except.ok ()) :
    isCurrentlyRecording (startRecording st p).1 = false ∧
    isCurrentlyRecording (fireStart (startRecording st p).1) = true := by
  by_cases hs : p.supported
  · by_cases hr : st.isRecording
    · simp [startRecording, hs, hr] at h
    · by_cases hc : p.ctorFails
      · simp [startRecording, hs, hr, hc] at h
      · by_cases hf : p.startFails
        · simp [startRecording, hs, hr, hc, hf] at h
        · simp [startRecording, isCurrentlyRecording, fireStart, hs, hr, hc, hf]
  · simp [startRecording, hs] at h

/-- C4 witness: the amended statement evaluated on a concrete
successful call. -/
theorem startRecordingActiveOnlyAfterOnstartWitness :
    isCurrentlyRecording (startRecording initState
        ⟨true, [3], false, [], none, fun _ => true, false, false⟩).1 = false ∧
    isCurrentlyRecording (fireStart (startRecording initState
        ⟨true, [3], false, [], none, fun _ => true, false, false⟩).1) = true :=
  startRecordingActiveOnlyAfterOnstart initState _ rfl

/-- C8 counterexample: the claim says the recorder mime type is always
the first platform-supported entry of the fixed preference list (with
the `"video/webm"` fallback).  The code gives a caller-supplied
`options.mimeType` precedence: with every type supported, the first
supported entry is `"video/webm;codecs=vp9,opus"`, yet a call passing
`mimeType: "video/x-custom"` constructs the recorder with
`"video/x-custom"`. -/
theorem mimeSelectionClaimRefuted :
    (startRecording initState
        ⟨true, [1], false, [], some "video/x-custom", fun _ => true,
          false, false⟩).1.recorderMime = "video/x-custom" ∧
    (getSupportedMimeTypes (fun _ => true)).headD "video/webm"
      = "video/webm;codecs=vp9,opus" :=
  ⟨rfl, rfl⟩

/-- C8 (amended): when the caller supplies no explicit mime type (as at
the only call site in the repository), the recorder is constructed with
the first entry of the fixed descending-preference list that the
platform reports as supported, falling back to the hard-coded
`"video/webm"` when none is supported; a caller-supplied non-empty
`options.mimeType` takes precedence and is used as given. -/
theorem mimeSelectionBehaviour :
    (∀ (st : SvcState) (p : SessionParams), p.optMime = none →
      (startRecording st p).2 = Except.ok () →
      (startRecording st p).1.recorderMime =
        (getSupportedMimeTypes p.isTypeSupported).headD "video/webm") ∧
    (∀ (st : SvcState) (p : SessionParams) (s : String),
      p.optMime = some s → ¬ s = "" →
      (startRecording st p).2 = Except.ok () →
      (startRecording st p).1.recorderMime = s) := by
  constructor
  · intro st p hm h
    by_cases hs : p.supported
    · by_cases hr : st.isRecording
      · simp [startRecording, hs, hr] at h
      · by_cases hc : p.ctorFails
        · simp [startRecording, hs, hr, hc] at h
        · by_cases hf : p.startFails
          · simp [startRecording, hs, hr, hc, hf] at h
          · simp [startRecording, hs, hr, hc, hf, hm, selectedMimeType_none]
    · simp [startRecording, hs] at h
  · intro st p s hm hns h
    by_cases hs : p.supported
    · by_cases hr : st.isRecording
      · simp [startRecording, hs, hr] at h
      · by_cases hc : p.ctorFails
        · simp [startRecording, hs, hr, hc] at h
        · by_cases hf : p.startFails
          · simp [startRecording, hs, hr, hc, hf] at h
          · simp [startRecording, hs, hr, hc, hf, hm,
              selectedMimeType_some s hns]
    · simp [startRecording, hs] at h

/-- C8 witness: the amended selection evaluated on concrete calls, one
without and one with a caller-supplied mime type. -/
theorem mimeSelectionBehaviourWitness :
    (startRecording initState
        ⟨true, [1], false, [], none, fun _ => false, false, false⟩).1.recorderMime
      = (getSupportedMimeTypes (fun _ => false)).headD "video/webm" ∧
    (startRecording initState
        ⟨true, [1], false, [], some "video/mp4", fun _ => false,
          false, false⟩).1.recorderMime = "video/mp4" :=
  ⟨mimeSelectionBehaviour.1 initState _ rfl rfl,
   mimeSelectionBehaviour.2 initState _ "video/mp4" rfl (by decide) rfl⟩

/-- C2: for every recording session ending in any way — normal stop,
mid-recording recorder error, or setup failure inside `startRecording`
(recorder construction or `start` throwing, with or without audio) —
resource release runs exactly once for the session (`cleanupRuns = 1`
from the per-session baseline), every acquired video/audio track
receives a `track.stop()` call, the stream and recorder references are
dropped, and the state is reset to idle. -/
theorem sessionResourceRelease (st0 : SvcState) (p : SessionParams)
    (datas : List Chunk) (ending : SessionEnding)
    (hsup : p.supported = true) (hrec : st0.isRecording = false)
    (hclean : st0.cleanupRuns = 0) :
    (runSession st0 p datas ending).1.cleanupRuns = 1 ∧
    (∀ t ∈ acquiredTracks p, t ∈ (runSession st0 p datas ending).1.stops) ∧
    (runSession st0 p datas ending).1.canvasStream = none ∧
    (runSession st0 p datas ending).1.mixedStream = none ∧
    (runSession st0 p datas ending).1.hasRecorder = false ∧
    (runSession st0 p datas ending).1.isRecording = false := by
  cases hag : p.audioGranted with
  | true =>
    cases hcf : p.ctorFails with
    | true =>
      simp [runSession, startRecording, cleanup, acquiredTracks,
        hsup, hrec, hclean, hag, hcf, List.mem_append]
      tauto
    | false =>
      cases hsf : p.startFails with
      | true =>
        simp [runSession, startRecording, cleanup, acquiredTracks,
          hsup, hrec, hclean, hag, hcf, hsf, List.mem_append]
        tauto
      | false =>
        cases ending with
        | recorderError =>
          simp [runSession, startRecording, fireStart, fireError, cleanup,
            acquiredTracks, hsup, hrec, hclean, hag, hcf, hsf,
            foldl_fireData, List.mem_append]
          tauto
        | normalStop =>
          simp [runSession, startRecording, fireStart, fireStop, stopRecording,
            cleanup, acquiredTracks, hsup, hrec, hclean, hag, hcf, hsf,
            foldl_fireData, jsOrString, List.mem_append]
          tauto
  | false =>
    cases hcf : p.ctorFails with
    | true =>
      simp [runSession, startRecording, cleanup, acquiredTracks,
        hsup, hrec, hclean, hag, hcf, List.mem_append]
      tauto
    | false =>
      cases hsf : p.startFails with
      | true =>
        simp [runSession, startRecording, cleanup, acquiredTracks,
          hsup, hrec, hclean, hag, hcf, hsf, List.mem_append]
        tauto
      | false =>
        cases ending with
        | recorderError =>
          simp [runSession, startRecording, fireStart, fireError, cleanup,
            acquiredTracks, hsup, hrec, hclean, hag, hcf, hsf,
            foldl_fireData, List.mem_append]
          tauto
        | normalStop =>
          simp [runSession, startRecording, fireStart, fireStop, stopRecording,
            cleanup, acquiredTracks, hsup, hrec, hclean, hag, hcf, hsf,
            foldl_fireData, jsOrString, List.mem_append]
          tauto

/-- C2 witness: a full successful session (audio granted, two data
slices, normal stop) evaluated concretely. -/
theorem sessionResourceReleaseWitness :
    (runSession initState
        ⟨true, [1], true, [2], none, fun _ => false, false, false⟩
        [⟨1, 4⟩, ⟨1, 0⟩] SessionEnding.normalStop).1.cleanupRuns = 1 ∧
    (∀ t ∈ acquiredTracks
        ⟨true, [1], true, [2], none, fun _ => false, false, false⟩,
      t ∈ (runSession initState
        ⟨true, [1], true, [2], none, fun _ => false, false, false⟩
        [⟨1, 4⟩, ⟨1, 0⟩] SessionEnding.normalStop).1.stops) ∧
    (runSession initState
        ⟨true, [1], true, [2], none, fun _ => false, false, false⟩
        [⟨1, 4⟩, ⟨1, 0⟩] SessionEnding.normalStop).1.canvasStream = none ∧
    (runSession initState
        ⟨true, [1], true, [2], none, fun _ => false, false, false⟩
        [⟨1, 4⟩, ⟨1, 0⟩] SessionEnding.normalStop).1.mixedStream = none ∧
    (runSession initState
        ⟨true, [1], true, [2], none, fun _ => false, false, false⟩
        [⟨1, 4⟩, ⟨1, 0⟩] SessionEnding.normalStop).1.hasRecorder = false ∧
    (runSession initState
        ⟨true, [1], true, [2], none, fun _ => false, false, false⟩
        [⟨1, 4⟩, ⟨1, 0⟩] SessionEnding.normalStop).1.isRecording = false :=
  sessionResourceRelease initState _ [⟨1, 4⟩, ⟨1, 0⟩] SessionEnding.normalStop
    rfl rfl rfl

/-- C10: the chunk buffer is cleared when a session starts and only
strictly-positive-size data events are appended, so at every point of
the session the buffer holds no empty chunk, and the finalized blob of
a session ending in a normal stop is exactly the arrival-ordered list
of that session's non-empty chunks — independent of whatever chunks a
previous session left in `recordedChunks`. -/
theorem chunkBufferSessionIsolation (st0 : SvcState) (p : SessionParams)
    (datas : List Chunk)
    (hsup : p.supported = true) (hrec : st0.isRecording = false)
    (hcf : p.ctorFails = false) (hsf : p.startFails = false) :
    ((runSession st0 p datas SessionEnding.normalStop).2.map Prod.fst
      = some (datas.filter keepChunk)) ∧
    (∀ ds, ds <+: datas →
      ∀ c ∈ (ds.foldl fireData (fireStart (startRecording st0 p).1)).recordedChunks,
        0 < c.size) := by
  constructor
  · simp [runSession, startRecording, fireStart, fireStop, stopRecording,
      cleanup, hsup, hrec, hcf, hsf, foldl_fireData]
  · intro ds _ c hcmem
    rw [foldl_fireData] at hcmem
    simp [startRecording, fireStart, hsup, hrec, hcf, hsf,
      List.mem_filter, keepChunk] at hcmem
    exact hcmem.2

/-- C10 witness: a session started over a leftover buffer, receiving an
empty slice between two non-empty ones: the final blob holds exactly
the two non-empty chunks of this session, in arrival order. -/
theorem chunkBufferSessionIsolationWitness :
    (runSession { initState with recordedChunks := [⟨0, 7⟩] }
        ⟨true, [1], false, [], none, fun _ => false, false, false⟩
        [⟨1, 5⟩, ⟨1, 0⟩, ⟨1, 3⟩] SessionEnding.normalStop).2.map Prod.fst
      = some [⟨1, 5⟩, ⟨1, 3⟩] := by
  have h := chunkBufferSessionIsolation
    { initState with recordedChunks := [⟨0, 7⟩] }
    ⟨true, [1], false, [], none, fun _ => false, false, false⟩
    [⟨1, 5⟩, ⟨1, 0⟩, ⟨1, 3⟩] rfl rfl rfl rfl
  simpa [keepChunk] using h.1

/-- C6: for every non-empty text queue whose entries all speak
successfully, `handleTTSPlay` emits exactly the per-entry narration
pattern: for each entry, the "now reading index i" notification
(`setCurrentTextIndex(i)`) immediately before that entry's single
`speak` call, with exactly one fixed 500 ms pause between consecutive
entries and none after the last.  Consequently the `speak` calls, in
order, are exactly the queue, and the number of 500 ms pauses is the
number of entries minus one. -/
theorem narrationSequenceCorrect (texts : List String) (speakOk : Nat → Bool)
    (hne : texts ≠ []) (hok : ∀ j, speakOk j = true) :
    handleTTSPlay texts true speakOk =
      [TTSEv.setTtsStatus "playing", TTSEv.setIndex 0] ++ specNarrationSeq texts 0 ++
        [TTSEv.setTtsStatus "idle", TTSEv.setIndex 0] ∧
    (handleTTSPlay texts true speakOk).filterMap speakOf = texts ∧
    ((handleTTSPlay texts true speakOk).filter isPause500).length
      = texts.length - 1 := by
  have hlen : ¬ texts.length = 0 := by simpa using hne
  have hloop := ttsLoop_allOk speakOk hok texts 0
  rw [Nat.zero_add] at hloop
  have hmain : handleTTSPlay texts true speakOk =
      [TTSEv.setTtsStatus "playing", TTSEv.setIndex 0] ++ specNarrationSeq texts 0 ++
        [TTSEv.setTtsStatus "idle", TTSEv.setIndex 0] := by
    simp [handleTTSPlay, hlen, hloop]
  refine ⟨hmain, ?_, ?_⟩
  · rw [hmain]
    simp [List.filterMap_append, speakOf, specNarrationSeq_speaks]
  · rw [hmain]
    simp [List.filter_append, isPause500, specNarrationSeq_pauses]

/-- C6 witness: the two-entry scenario — queue `["Hello", "World"]`,
both entries succeed — yields exactly 2 speak calls in queue order and
exactly one 500 ms pause. -/
theorem narrationSequenceCorrectWitness :
    (handleTTSPlay ["Hello", "World"] true (fun _ => true)).filterMap speakOf
        = ["Hello", "World"] ∧
    ((handleTTSPlay ["Hello", "World"] true (fun _ => true)).filter
        isPause500).length = 1 := by
  have h := narrationSequenceCorrect ["Hello", "World"] (fun _ => true)
    (by decide) (fun j => rfl)
  exact ⟨h.2.1, h.2.2⟩

/-- C1 counterexample: the claim says that when a step after a
successful `startRecording` throws, `handleDownloadMP4` attempts
`stopRecording()` and propagates the error to its caller.  In the code
the `catch` block only records the error message and resets
`recordingStatus`; on a run where the narration leg rejects, no
`stopRecording` call appears in the trace and the handler resolves
normally (nothing is propagated). -/
theorem orchErrorPathRefuted :
    (handleDownloadMP4 ⟨true, 2, true, "idle", false, true⟩).propagated = none ∧
    OrchEv.stopRecCall ∉ (handleDownloadMP4 ⟨true, 2, true, "idle", false, true⟩).trace ∧
    (handleDownloadMP4 ⟨true, 2, true, "idle", false, true⟩).finalStatus = "idle" := by
  decide

/-- C1 (amended): if a step after a successful recorder start throws,
`handleDownloadMP4` resets `recordingStatus` to idle (so a retry is
possible) and surfaces a user-visible error message, but it does not
call `stopRecording()` and does not propagate the error to its caller —
the async handler resolves normally, swallowing the error after the
status reset. -/
theorem orchErrorPathBehaviour (inp : OrchInput)
    (h1 : inp.canvasReady = true) (h2 : ¬ inp.textCount = 0)
    (h3 : inp.recSupported = true)
    (h4 : ¬ inp.status0 = "recording") (h5 : ¬ inp.status0 = "processing")
    (h6 : inp.startThrows = false) (h7 : inp.ttsThrows = true) :
    (handleDownloadMP4 inp).finalStatus = "idle" ∧
    OrchEv.setErrorMsg "Failed to create video" ∈ (handleDownloadMP4 inp).trace ∧
    OrchEv.stopRecCall ∉ (handleDownloadMP4 inp).trace ∧
    (handleDownloadMP4 inp).propagated = none := by
  simp [handleDownloadMP4, h1, h2, h3, h4, h5, h6, h7]

/-- C1 witness: the amended error-path behaviour evaluated on a
concrete run whose narration leg rejects. -/
theorem orchErrorPathBehaviourWitness :
    (handleDownloadMP4 ⟨true, 1, true, "idle", false, true⟩).finalStatus = "idle" ∧
    OrchEv.setErrorMsg "Failed to create video"
      ∈ (handleDownloadMP4 ⟨true, 1, true, "idle", false, true⟩).trace ∧
    OrchEv.stopRecCall ∉ (handleDownloadMP4 ⟨true, 1, true, "idle", false, true⟩).trace ∧
    (handleDownloadMP4 ⟨true, 1, true, "idle", false, true⟩).propagated = none :=
  orchErrorPathBehaviour _ rfl (by decide) rfl (by decide) (by decide) rfl rfl

/-- C9 counterexample: the claim says every `speak` call cancels any
still-active narration, so at most one utterance is ever active.  The
second `TTSService.speak` variant never calls `synthesis.cancel()`:
called while a prior utterance is still active, it leaves two
utterances queued with the engine. -/
theorem speakCancelsPriorRefuted :
    ¬ ((speakSubmitV2 true "World"
        ⟨["Hello"], 1, 0⟩).1.queue.length ≤ 1) := by
  decide

/-- C9 (amended): both variants invoke the narration engine exactly
once per successful call, but only the first variant
(services/ttsService.ts) cancels still-active narration before
starting — after it, the engine queue is exactly the new utterance.
The second variant enqueues without cancelling, so a prior utterance
may remain active alongside the new one. -/
theorem speakEngineInvocation :
    (∀ (e : SpeechEngine) (t : String), ¬ jsTrim t = "" →
      (speakSubmitV1 true t e).1.speakCalls = e.speakCalls + 1 ∧
      (speakSubmitV1 true t e).1.queue = [t] ∧
      (speakSubmitV1 true t e).1.cancelCalls = e.cancelCalls + 1 ∧
      (speakSubmitV1 true t e).2 = Except.ok ()) ∧
    (∀ (e : SpeechEngine) (t : String),
      (speakSubmitV2 true t e).1.speakCalls = e.speakCalls + 1 ∧
      (speakSubmitV2 true t e).1.queue = e.queue ++ [t] ∧
      (speakSubmitV2 true t e).2 = Except.ok ()) := by
  constructor
  · intro e t ht
    simp [speakSubmitV1, synthSpeak, synthCancel, ht]
  · intro e t
    simp [speakSubmitV2, synthSpeak]

/-- C9 witness: both variants evaluated on a concrete engine with one
still-active utterance. -/
theorem speakEngineInvocationWitness :
    (speakSubmitV1 true "Hello" ⟨["Old"], 3, 1⟩).1.speakCalls = 3 + 1 ∧
    (speakSubmitV1 true "Hello" ⟨["Old"], 3, 1⟩).1.queue = ["Hello"] ∧
    (speakSubmitV1 true "Hello" ⟨["Old"], 3, 1⟩).1.cancelCalls = 1 + 1 ∧
    (speakSubmitV1 true "Hello" ⟨["Old"], 3, 1⟩).2 = Except.ok () ∧
    (speakSubmitV2 true "Hi" ⟨["Old"], 3, 1⟩).1.speakCalls = 3 + 1 := by
  have h1 := speakEngineInvocation.1 ⟨["Old"], 3, 1⟩ "Hello" (by decide)
  have h2 := speakEngineInvocation.2 ⟨["Old"], 3, 1⟩ "Hi"
  exact ⟨h1.1, h1.2.1, h1.2.2.1, h1.2.2.2, h2.1⟩

/-- C5: cancellation semantics of the poller.  (i) `stopPolling` is
idempotent.  (ii) When `stopPolling` runs while a check is in flight
(or from inside its `onUpdate`) and that check reports a non-terminal
status, the check still runs to completion (it is counted and its
update emitted) and is then discarded: the wait rejects with the
cancellation failure instead of silently reattempting, and no further
check or timer is ever scheduled.  (iii) When `stopPolling` runs while
the timeout for the next check is pending, the pending check is
cleared: it never runs, and no further work is scheduled. -/
theorem pollerCancellationSemantics :
    (∀ st : PollerState, stopPolling (stopPolling st) = stopPolling st) ∧
    (∀ (pre rest : List CheckResult) (s : VideoStatusResponse),
      (∀ r ∈ pre, okNonTerminal r = true) → nonTerminal s = true →
      pollUntilComplete (pre ++ CheckResult.ok s :: rest)
          (CancelAt.duringCheck pre.length) =
        { outcome := PollOutcome.rejectedCancelled "Video generation was cancelled",
          checksPerformed := pre.length + 1,
          updates := statusesOf pre ++ [s],
          timersScheduled := pre.length }) ∧
    (∀ (pre rest : List CheckResult) (r : CheckResult),
      (∀ x ∈ pre, okNonTerminal x = true) → 1 ≤ pre.length →
      pollUntilComplete (pre ++ r :: rest) (CancelAt.whilePending pre.length) =
        { outcome := PollOutcome.stillPending,
          checksPerformed := pre.length,
          updates := statusesOf pre,
          timersScheduled := pre.length }) := by
  refine ⟨?_, ?_, ?_⟩
  · intro st
    cases st with
    | mk iv ip => cases iv <;> simp [stopPolling]
  · intro pre rest s hpre hs
    have hc : ∀ j, 0 ≤ j → j < 0 + pre.length →
        CancelAt.duringCheck pre.length ≠ CancelAt.duringCheck j ∧
        CancelAt.duringCheck pre.length ≠ CancelAt.whilePending j := by
      intro j hj1 hj2
      constructor
      · intro hcon
        injection hcon with hinj
        omega
      · intro hcon
        exact CancelAt.noConfusion hcon
    have happ := pollLoop_append (CancelAt.duringCheck pre.length) pre
      (CheckResult.ok s :: rest) 0 hpre hc
    have hnt : ¬ s.status = "SUCCEEDED" ∧ ¬ s.status = "FAILED" := by
      simpa [nonTerminal] using hs
    simp only [pollUntilComplete]
    rw [happ, Nat.zero_add]
    simp [pollLoop, hnt.1, hnt.2]
  · intro pre rest r hpre hlen
    have hc : ∀ j, 0 ≤ j → j < 0 + pre.length →
        CancelAt.whilePending pre.length ≠ CancelAt.duringCheck j ∧
        CancelAt.whilePending pre.length ≠ CancelAt.whilePending j := by
      intro j hj1 hj2
      constructor
      · intro hcon
        exact CancelAt.noConfusion hcon
      · intro hcon
        injection hcon with hinj
        omega
    have happ := pollLoop_append (CancelAt.whilePending pre.length) pre
      (r :: rest) 0 hpre hc
    simp only [pollUntilComplete]
    rw [happ, Nat.zero_add]
    simp [pollLoop]

/-- C5 witness: a Pending check, then cancellation — once during the
in-flight Running check (the check completes, its update is emitted,
the wait rejects as cancelled, nothing further is scheduled), once
while the second check's timer is pending (that check never runs);
plus idempotence of `stopPolling` on a concrete state. -/
theorem pollerCancellationSemanticsWitness :
    stopPolling (stopPolling ⟨some 7, true⟩) = stopPolling ⟨some 7, true⟩ ∧
    pollUntilComplete
        [CheckResult.ok ⟨"PENDING", some 10, none, none⟩,
         CheckResult.ok ⟨"RUNNING", some 60, none, none⟩]
        (CancelAt.duringCheck 1) =
      { outcome := PollOutcome.rejectedCancelled "Video generation was cancelled",
        checksPerformed := 2,
        updates := [⟨"PENDING", some 10, none, none⟩,
          ⟨"RUNNING", some 60, none, none⟩],
        timersScheduled := 1 } ∧
    pollUntilComplete
        [CheckResult.ok ⟨"PENDING", some 10, none, none⟩,
         CheckResult.ok ⟨"RUNNING", some 60, none, none⟩]
        (CancelAt.whilePending 1) =
      { outcome := PollOutcome.stillPending,
        checksPerformed := 1,
        updates := [⟨"PENDING", some 10, none, none⟩],
        timersScheduled := 1 } := by
  refine ⟨pollerCancellationSemantics.1 ⟨some 7, true⟩, ?_, ?_⟩
  · have h := pollerCancellationSemantics.2.1
      [CheckResult.ok ⟨"PENDING", some 10, none, none⟩]
      [] ⟨"RUNNING", some 60, none, none⟩ (by decide) (by decide)
    simpa [statusesOf] using h
  · have h := pollerCancellationSemantics.2.2
      [CheckResult.ok ⟨"PENDING", some 10, none, none⟩]
      [] (CheckResult.ok ⟨"RUNNING", some 60, none, none⟩) (by decide) (by decide)
    simpa [statusesOf] using h

/-- C7: when the very first status check reports `SUCCEEDED`, the
poller performed that check with no initial timer (the first poll runs
immediately), emitted the observed status to `onUpdate` before
deciding, resolved with that payload after exactly one check, and
scheduled no further poll. -/
theorem pollerImmediateSuccess (s : VideoStatusResponse) (rest : List CheckResult)
    (hs : s.status = "SUCCEEDED") :
    pollUntilComplete (CheckResult.ok s :: rest) CancelAt.never =
      { outcome := PollOutcome.resolved s, checksPerformed := 1,
        updates := [s], timersScheduled := 0 } := by
  simp [pollUntilComplete, pollLoop, hs]

/-- C7 witness: the immediately-succeeding job evaluated concretely. -/
theorem pollerImmediateSuccessWitness :
    pollUntilComplete
        [CheckResult.ok ⟨"SUCCEEDED", some 100, some "https://x/video.mp4", none⟩]
        CancelAt.never =
      { outcome := PollOutcome.resolved
          ⟨"SUCCEEDED", some 100, some "https://x/video.mp4", none⟩,
        checksPerformed := 1,
        updates := [⟨"SUCCEEDED", some 100, some "https://x/video.mp4", none⟩],
        timersScheduled := 0 } :=
  pollerImmediateSuccess _ [] rfl

end VisuFix
